import Mathlib

/-!
Verification of the order lifecycle orchestration pipeline of an e-commerce
service (NestJS).  The development shallowly embeds the relevant TypeScript
code: `OrderService` (src/order/order.service.ts), `EventPublisherService`
(src/order/event-publisher.service.ts), the `order-processing` Bull processor
and the queue registration of `OrderModule`.  Stateful code is modelled by
explicit state passing over `SysState` (store, cache, effect trace); fallible
collaborators (store save, broker emits, queue add) are modelled by a
`Faults` record injecting failures; the `decimal(10,2)` monetary columns are
fixed-point numbers, modelled exactly as integer counts of the smallest
currency unit.
-/

/-- The `OrderStatus` enum of src/order/entities/order.entity.ts. -/
inductive OrderStatus
  | pending
  | confirmed
  | processing
  | shipped
  | delivered
  | cancelled
deriving DecidableEq, Repr

/-- The string value of each enum member ('pending', 'confirmed', ...). -/
def statusString : OrderStatus → String
  | .pending => "pending"
  | .confirmed => "confirmed"
  | .processing => "processing"
  | .shipped => "shipped"
  | .delivered => "delivered"
  | .cancelled => "cancelled"

/-- The `validTransitions` table of `OrderService.validateStatusTransition`. -/
def validTransitions : OrderStatus → List OrderStatus
  | .pending => [.confirmed, .cancelled]
  | .confirmed => [.processing, .cancelled]
  | .processing => [.shipped, .cancelled]
  | .shipped => [.delivered]
  | .delivered => []
  | .cancelled => []

/-- Errors raised by the embedded code.  `notFound` models
`NotFoundException`, `invalidTransition` the `BadRequestException` of
`validateStatusTransition`; `publishFailure`, `storeFailure` and
`queueFailure` model errors raised by the broker, store and queue
collaborators; `jobError` models plain `Error(msg)` raised by pipeline
steps. -/
inductive Err
  | notFound (id : String)
  | invalidTransition (cur req : OrderStatus)
  | publishFailure (channel : String)
  | storeFailure
  | queueFailure
  | jobError (msg : String)
deriving DecidableEq, Repr

/-- The `message` property of each error (`error.message` in TypeScript). -/
def errMessage : Err → String
  | .notFound id => "Order with ID " ++ id ++ " not found"
  | .invalidTransition c r =>
      "Invalid status transition from " ++ statusString c ++ " to " ++ statusString r
  | .publishFailure ch => "Failed to publish to " ++ ch
  | .storeFailure => "store failure"
  | .queueFailure => "queue failure"
  | .jobError m => m

/-- `OrderService.validateStatusTransition`: throws `BadRequestException`
when the requested status is not in `validTransitions[currentStatus]`. -/
def validateStatusTransition (currentStatus newStatus : OrderStatus) : Except Err Unit :=
  if newStatus ∈ validTransitions currentStatus then .ok ()
  else .error (.invalidTransition currentStatus newStatus)

/-- The `shippingAddress` jsonb column of the `Order` entity. -/
structure ShippingAddress where
  street : String
  city : String
  state : String
  zipCode : String
  country : String
deriving DecidableEq, Repr

/-- The `OrderItem` entity (src/order/entities/order.entity.ts). -/
structure OrderItem where
  productId : String
  productName : String
  quantity : Nat
  unitPrice : Int
  totalPrice : Int
deriving DecidableEq, Repr

/-- The `Order` entity.  Nullable columns `cancelledAt`/`cancelReason` are
`Option`s; `cancelledAt` is an abstract timestamp.  `createdAt`/`updatedAt`
and `metadata` are system-set/free-form and play no role in any claim. -/
structure Order where
  id : String
  userId : String
  totalAmount : Int
  status : OrderStatus
  shippingAddress : ShippingAddress
  items : List OrderItem
  cancelledAt : Option Nat
  cancelReason : Option String
deriving DecidableEq, Repr

/-- An element of `CreateOrderDto.items` (no `totalPrice`: that field is
derived by `createOrder`). -/
structure CreateOrderItemDto where
  productId : String
  productName : String
  quantity : Nat
  unitPrice : Int
deriving DecidableEq, Repr

/-- The `CreateOrderDto` consumed by `OrderService.createOrder`. -/
structure CreateOrderDto where
  userId : String
  items : List CreateOrderItemDto
  shippingAddress : ShippingAddress
deriving DecidableEq, Repr

/-- The order entity built by `createOrder` before saving: totalAmount is the
`reduce` over the items, each item gains `totalPrice = unitPrice * quantity`,
and the status is `PENDING`.  The store generates the uuid; it is passed in
as `newId`. -/
def builtOrder (dto : CreateOrderDto) (newId : String) : Order :=
  { id := newId
    userId := dto.userId
    totalAmount :=
      dto.items.foldl (fun sum item => sum + item.unitPrice * (item.quantity : Int)) 0
    status := .pending
    shippingAddress := dto.shippingAddress
    items := dto.items.map (fun item =>
      { productId := item.productId
        productName := item.productName
        quantity := item.quantity
        unitPrice := item.unitPrice
        totalPrice := item.unitPrice * (item.quantity : Int) })
    cancelledAt := none
    cancelReason := none }

/-- The event envelope built by the `EventPublisherService` methods.  Fields
absent from a given envelope are `none`; the RabbitMQ notification message
has no timestamp.  The `timestamp` (an ISO string in TypeScript) is an
abstract instant. -/
structure EventEnvelope where
  eventType : String
  timestamp : Option Nat := none
  orderId : String
  userId : String
  totalAmount : Option Int := none
  status : Option OrderStatus := none
  newStatus : Option OrderStatus := none
  itemCount : Option Nat := none
  cancelReason : Option (Option String) := none
deriving DecidableEq, Repr

/-- One observable side effect on a collaborator, recorded in program
order. -/
inductive Effect
  | storeSave (orderId : String)
  | storeRead (orderId : String)
  | cacheGet (key : String)
  | cacheSet (key : String) (ttl : Nat)
  | cacheDel (key : String)
  | cacheScan (userId : String)
  | emit (channel : String) (env : EventEnvelope)
  | enqueue (jobName : String) (orderId : String) (userId : String)
  | progress (pct : Nat)
deriving DecidableEq, Repr

/-- The world state threaded through every operation: the relational store,
the key/value cache (`findByUser` listing entries are not modelled — no
claim touches them) and the trace of collaborator side effects. -/
structure SysState where
  store : List Order
  cache : List (String × Order)
  trace : List Effect
deriving DecidableEq, Repr

/-- Failure injection for the fallible collaborators.  The repository's
`checkInventory`/`reserveInventory`/`initiatePayment` are timed stubs
standing in for external collaborators (spec §4.4, §9); their outcome is
modelled by the last three fields. -/
structure Faults where
  saveFails : Bool := false
  enqueueFails : Bool := false
  emitFails : String → Bool := fun _ => false
  inventoryAvailable : Bool := true
  reserveError : Option String := none
  paymentError : Option String := none

def initState : SysState := { store := [], cache := [], trace := [] }

/-- `orderRepository.save`: update the row with the entity's id, or insert
it. -/
def storeSave (o : Order) (store : List Order) : List Order :=
  if store.any (fun x => x.id = o.id) then
    store.map (fun x => if x.id = o.id then o else x)
  else store ++ [o]

/-- `orderRepository.findOne({where: {id}, relations: ['items']})`. -/
def storeFind (store : List Order) (id : String) : Option Order :=
  store.find? (fun o => o.id = id)

def cacheLookup (cache : List (String × Order)) (key : String) : Option Order :=
  (cache.find? (fun kv => kv.1 = key)).map (fun kv => kv.2)

/-- `cacheManager.set(key, value, ttl)` (ttl recorded on the trace). -/
def cacheStore (cache : List (String × Order)) (key : String) (o : Order) :
    List (String × Order) :=
  if cache.any (fun kv => kv.1 = key) then
    cache.map (fun kv => if kv.1 = key then (key, o) else kv)
  else cache ++ [(key, o)]

/-- `cacheManager.del(key)`. -/
def cacheDelKey (cache : List (String × Order)) (key : String) :
    List (String × Order) :=
  cache.filter (fun kv => kv.1 ≠ key)

/-- The cache key `order:<id>` used by `findOne`/`updateStatus`. -/
def orderCacheKey (id : String) : String := "order:" ++ id

/-- The pattern base `user-orders:<userId>:` matched by
`invalidateUserOrdersCache`'s `store.keys('user-orders:<userId>:*')`. -/
def listingKeyBase (userId : String) : String := "user-orders:" ++ userId ++ ":"

/-- The keys returned by the cache store's pattern scan. -/
def listingKeys (userId : String) (cache : List (String × Order)) : List String :=
  (cache.map (fun kv => kv.1)).filter (fun k => (listingKeyBase userId).isPrefixOf k)

/-- The side effects performed by `invalidateUserOrdersCache`: one pattern
scan, then one delete per matching key. -/
def invalidationTrace (userId : String) (cache : List (String × Order)) : List Effect :=
  .cacheScan userId :: (listingKeys userId cache).map .cacheDel

/-- `OrderService.invalidateUserOrdersCache`: scans the cache store for keys
matching `user-orders:<userId>:*` and deletes each (no-op delete list when
none match). -/
def invalidateUserOrdersCache (userId : String) (s : SysState) : SysState :=
  { s with
    cache := s.cache.filter (fun kv => ¬ (listingKeyBase userId).isPrefixOf kv.1)
    trace := s.trace ++ invalidationTrace userId s.cache }

/-- The `ORDER_CREATED` envelope of `publishOrderCreated`. -/
def createdEnvelope (o : Order) (now : Nat) : EventEnvelope :=
  { eventType := "ORDER_CREATED"
    timestamp := some now
    orderId := o.id
    userId := o.userId
    totalAmount := some o.totalAmount
    status := some o.status
    itemCount := some o.items.length }

/-- The `ORDER_STATUS_CHANGED` envelope of `publishOrderStatusChanged`. -/
def statusChangedEnvelope (o : Order) (now : Nat) : EventEnvelope :=
  { eventType := "ORDER_STATUS_CHANGED"
    timestamp := some now
    orderId := o.id
    userId := o.userId
    newStatus := some o.status
    totalAmount := some o.totalAmount }

/-- The `STATUS_UPDATE` notification message sent to RabbitMQ for shipped or
delivered orders (no timestamp field in the source). -/
def notificationEnvelope (o : Order) : EventEnvelope :=
  { eventType := "STATUS_UPDATE"
    orderId := o.id
    userId := o.userId
    status := some o.status }

/-- The `ORDER_CANCELLED` envelope of `publishOrderCancelled`. -/
def cancelledEnvelope (o : Order) (now : Nat) : EventEnvelope :=
  { eventType := "ORDER_CANCELLED"
    timestamp := some now
    orderId := o.id
    userId := o.userId
    cancelReason := some o.cancelReason
    totalAmount := some o.totalAmount }

/-- `EventPublisherService.publishOrderCreated`: emits to Kafka topic
`order.created`, then to RabbitMQ queue `order_created`; a failure of either
escapes the try block and is rethrown (`some err`). -/
def publishOrderCreated (f : Faults) (o : Order) (now : Nat) (s : SysState) :
    SysState × Option Err :=
  if f.emitFails "order.created" then (s, some (.publishFailure "order.created"))
  else
    let s1 := { s with trace := s.trace ++ [.emit "order.created" (createdEnvelope o now)] }
    if f.emitFails "order_created" then (s1, some (.publishFailure "order_created"))
    else
      ({ s1 with trace := s1.trace ++ [.emit "order_created" (createdEnvelope o now)] }, none)

/-- `EventPublisherService.publishOrderStatusChanged`: emits to Kafka topic
`order.status.changed`; when the status is shipped or delivered additionally
sends a notification to RabbitMQ queue `order_notification`; a failure of
either is rethrown. -/
def publishOrderStatusChanged (f : Faults) (o : Order) (now : Nat) (s : SysState) :
    SysState × Option Err :=
  if f.emitFails "order.status.changed" then
    (s, some (.publishFailure "order.status.changed"))
  else
    let s1 :=
      { s with trace := s.trace ++ [.emit "order.status.changed" (statusChangedEnvelope o now)] }
    if o.status = .shipped ∨ o.status = .delivered then
      if f.emitFails "order_notification" then
        (s1, some (.publishFailure "order_notification"))
      else
        ({ s1 with trace := s1.trace ++ [.emit "order_notification" (notificationEnvelope o)] },
          none)
    else (s1, none)

/-- `EventPublisherService.publishOrderCancelled`: emits to Kafka topic
`order.cancelled` and RabbitMQ queue `order_cancelled`, but the catch block
only logs — a broker failure is swallowed and never rethrown. -/
def publishOrderCancelled (f : Faults) (o : Order) (now : Nat) (s : SysState) :
    SysState × Option Err :=
  if f.emitFails "order.cancelled" then (s, none)
  else
    let s1 := { s with trace := s.trace ++ [.emit "order.cancelled" (cancelledEnvelope o now)] }
    if f.emitFails "order_cancelled" then (s1, none)
    else
      ({ s1 with trace := s1.trace ++ [.emit "order_cancelled" (cancelledEnvelope o now)] },
        none)

/-- `OrderService.createOrder`: build the entity (totals computed from the
item list, status PENDING), save it, then publish the created event, enqueue
the `process-order` job, and invalidate the user's cached listings.  A
failing save aborts before any of those side effects; a failure after the
save propagates without rolling the saved order back. -/
def createOrder (f : Faults) (dto : CreateOrderDto) (newId : String) (now : Nat)
    (s : SysState) : SysState × Except Err Order :=
  let order := builtOrder dto newId
  if f.saveFails then (s, .error .storeFailure)
  else
    let s1 := { s with store := storeSave order s.store, trace := s.trace ++ [.storeSave newId] }
    match publishOrderCreated f order now s1 with
    | (s2, some e) => (s2, .error e)
    | (s2, none) =>
      if f.enqueueFails then (s2, .error .queueFailure)
      else
        let s3 := { s2 with trace := s2.trace ++ [.enqueue "process-order" newId dto.userId] }
        (invalidateUserOrdersCache dto.userId s3, .ok order)

/-- `OrderService.findOne`: cache-aside read of `order:<id>`; a hit returns
immediately, a miss loads from the store (NotFound when absent) and
populates the cache with a 300 second TTL. -/
def findOne (id : String) (s : SysState) : SysState × Except Err Order :=
  let key := orderCacheKey id
  let s1 := { s with trace := s.trace ++ [.cacheGet key] }
  match cacheLookup s.cache key with
  | some o => (s1, .ok o)
  | none =>
    let s2 := { s1 with trace := s1.trace ++ [.storeRead id] }
    match storeFind s.store id with
    | none => (s2, .error (.notFound id))
    | some o =>
      ({ s2 with cache := cacheStore s2.cache key o, trace := s2.trace ++ [.cacheSet key 300] },
        .ok o)

/-- The mutation performed by `updateStatus` on the loaded order: set the
status, and stamp `cancelledAt`/`cancelReason` iff the new status is
CANCELLED. -/
def applyStatus (order : Order) (newStatus : OrderStatus) (cancelReason : Option String)
    (now : Nat) : Order :=
  let order1 := { order with status := newStatus }
  if newStatus = OrderStatus.cancelled then
    { order1 with cancelledAt := some now, cancelReason := some (cancelReason.getD "") }
  else order1

/-- The tail of `updateStatus` after validation: save the mutated order,
publish the status-changed event, then delete the single-order cache entry
and invalidate the owning user's cached listings. -/
def saveAndPublish (f : Faults) (id : String) (order2 : Order) (userId : String)
    (now : Nat) (s1 : SysState) : SysState × Except Err Order :=
  if f.saveFails then (s1, .error .storeFailure)
  else
    let s2 :=
      { s1 with store := storeSave order2 s1.store, trace := s1.trace ++ [.storeSave id] }
    match publishOrderStatusChanged f order2 now s2 with
    | (s3, some e) => (s3, .error e)
    | (s3, none) =>
      let s4 :=
        { s3 with
          cache := cacheDelKey s3.cache (orderCacheKey id)
          trace := s3.trace ++ [.cacheDel (orderCacheKey id)] }
      (invalidateUserOrdersCache userId s4, .ok order2)

/-- `OrderService.updateStatus`: load via `findOne` (possibly cache-served),
validate the transition, mutate (`applyStatus`), then save, publish and
invalidate (`saveAndPublish`). -/
def updateStatus (f : Faults) (id : String) (newStatus : OrderStatus)
    (cancelReason : Option String) (now : Nat) (s : SysState) :
    SysState × Except Err Order :=
  match findOne id s with
  | (s1, .error e) => (s1, .error e)
  | (s1, .ok order) =>
    match validateStatusTransition order.status newStatus with
    | .error e => (s1, .error e)
    | .ok _ =>
      saveAndPublish f id (applyStatus order newStatus cancelReason now) order.userId now s1

/-- `OrderService.cancelOrder`: sugar for `updateStatus(id, CANCELLED,
reason)`. -/
def cancelOrder (f : Faults) (id : String) (reason : String) (now : Nat)
    (s : SysState) : SysState × Except Err Order :=
  updateStatus f id .cancelled (some reason) now s

/-- The `backoff` part of Bull's `defaultJobOptions` (delay in
milliseconds). -/
structure BackoffOptions where
  type : String
  delay : Nat
deriving DecidableEq, Repr

/-- Bull `defaultJobOptions` as registered by `OrderModule`. -/
structure JobOptions where
  attempts : Nat
  backoff : BackoffOptions
  removeOnComplete : Bool
  removeOnFail : Bool
deriving DecidableEq, Repr

/-- The `order-processing` queue registration of `OrderModule`
(`BullModule.registerQueue`). -/
def orderProcessingQueueOptions : JobOptions :=
  { attempts := 3
    backoff := { type := "exponential", delay := 2000 }
    removeOnComplete := true
    removeOnFail := false }

/-- The object a successful `handleOrderProcessing` run returns. -/
structure JobResult where
  success : Bool
  orderId : String
  message : String
deriving DecidableEq, Repr

/-- `job.progress(pct)`: observability checkpoint recorded on the trace. -/
def progress (s : SysState) (pct : Nat) : SysState :=
  { s with trace := s.trace ++ [.progress pct] }

/-- The processor's `validateOrder` step: `findOne`, then fail when the order
has no items. -/
def validateOrder (orderId : String) (s : SysState) : SysState × Except Err Unit :=
  match findOne orderId s with
  | (s1, .error e) => (s1, .error e)
  | (s1, .ok o) =>
    if o.items = [] then (s1, .error (.jobError "Order has no items"))
    else (s1, .ok ())

/-- The processor's `checkInventory` step.  The repository stub always
returns true after a simulated delay; the availability answered by the
external inventory collaborator it stands in for is the `Faults` field. -/
def checkInventory (f : Faults) : Bool := f.inventoryAvailable

/-- The processor's `reserveInventory` step; the repository stub always
succeeds, the external collaborator outcome is the `Faults` field. -/
def reserveInventory (f : Faults) : Except Err Unit :=
  match f.reserveError with
  | some m => .error (.jobError m)
  | none => .ok ()

/-- The processor's `initiatePayment` step; the repository stub always
succeeds, the external collaborator outcome is the `Faults` field. -/
def initiatePayment (f : Faults) : Except Err Unit :=
  match f.paymentError with
  | some m => .error (.jobError m)
  | none => .ok ()

/-- The try block of `handleOrderProcessing`: progress checkpoints
20/40/60/80/100 interleaved with `validateOrder`, `checkInventory` (raising
`Error('Insufficient inventory')` on unavailability), `reserveInventory`,
`initiatePayment`, and finally `updateStatus(orderId, CONFIRMED)`.  Any step
raising an error short-circuits the rest. -/
def processOrderTry (f : Faults) (orderId : String) (now : Nat) (s : SysState) :
    SysState × Except Err JobResult :=
  match validateOrder orderId (progress s 20) with
  | (s2, .error e) => (s2, .error e)
  | (s2, .ok _) =>
    if checkInventory f = false then
      (progress s2 40, .error (.jobError "Insufficient inventory"))
    else
      match reserveInventory f with
      | .error e => (progress (progress s2 40) 60, .error e)
      | .ok _ =>
        match initiatePayment f with
        | .error e => (progress (progress (progress s2 40) 60) 80, .error e)
        | .ok _ =>
          match updateStatus f orderId .confirmed none now
              (progress (progress (progress (progress s2 40) 60) 80) 100) with
          | (s7, .error e) => (s7, .error e)
          | (s7, .ok _) =>
            (s7, .ok { success := true, orderId := orderId,
                       message := "Order processed successfully" })

/-- The `process-order` job handler of `OrderProcessingProcessor`: runs the
pipeline; on an error, the catch block calls `updateStatus(orderId,
CANCELLED, reason := error.message)` and rethrows the original error — and
when that cancellation itself throws, its error propagates instead. -/
def handleOrderProcessing (f : Faults) (orderId : String) (now : Nat)
    (s : SysState) : SysState × Except Err JobResult :=
  match processOrderTry f orderId now s with
  | (s1, .ok r) => (s1, .ok r)
  | (s1, .error e) =>
    match updateStatus f orderId .cancelled (some (errMessage e)) now s1 with
    | (s2, .error e2) => (s2, .error e2)
    | (s2, .ok _) => (s2, .error e)

deriving instance DecidableEq for Except

/-! ## Basic facts about the collaborator models -/

theorem findOne_store_eq (id : String) (s : SysState) :
    (findOne id s).1.store = s.store := by
  cases h : cacheLookup s.cache (orderCacheKey id) with
  | some o => simp [findOne, h]
  | none =>
    cases h2 : storeFind s.store id with
    | none => simp [findOne, h, h2]
    | some o => simp [findOne, h, h2]

theorem storeSave_self_mem (o : Order) (st : List Order) : o ∈ storeSave o st := by
  unfold storeSave
  by_cases h : st.any (fun x => x.id = o.id)
  · simp only [h, if_true]
    rcases List.any_eq_true.mp h with ⟨x, hx, hxid⟩
    exact List.mem_map.mpr ⟨x, hx, by simp [of_decide_eq_true hxid]⟩
  · simp [h]

theorem mem_storeSave (o' o : Order) (st : List Order) (h : o' ∈ storeSave o st) :
    o' = o ∨ o' ∈ st := by
  unfold storeSave at h
  by_cases hc : st.any (fun x => x.id = o.id)
  · simp only [hc, if_true] at h
    rcases List.mem_map.mp h with ⟨x, hx, hxe⟩
    by_cases hid : x.id = o.id
    · simp [hid] at hxe; exact Or.inl hxe.symm
    · simp [hid] at hxe; exact Or.inr (hxe ▸ hx)
  · simp only [hc, if_false] at h
    rcases List.mem_append.mp h with h | h
    · exact Or.inr h
    · simp at h; exact Or.inl h

theorem cacheLookup_cacheStore_self (c : List (String × Order)) (k : String) (o : Order) :
    cacheLookup (cacheStore c k o) k = some o := by
  unfold cacheLookup cacheStore
  by_cases h : c.any (fun kv => kv.1 = k)
  · simp only [h, if_true]
    induction c with
    | nil => simp at h
    | cons kv rest ih =>
      by_cases hk : kv.1 = k
      · simp [List.find?, hk]
      · simp only [List.map_cons, if_neg hk]
        have : rest.any (fun kv => kv.1 = k) = true := by
          rcases List.any_eq_true.mp h with ⟨x, hx, hxk⟩
          rcases List.mem_cons.mp hx with rfl | hx
          · exact absurd (of_decide_eq_true hxk) hk
          · exact List.any_eq_true.mpr ⟨x, hx, hxk⟩
        have := ih this
        simpa [List.find?, hk] using this
  · simp only [h, if_false]
    induction c with
    | nil => simp [List.find?]
    | cons kv rest ih =>
      have hk : ¬ kv.1 = k := by
        intro hkk
        exact absurd (List.any_eq_true.mpr ⟨kv, List.mem_cons_self kv rest, by simp [hkk]⟩) h
      have hrest : ¬ rest.any (fun kv => kv.1 = k) = true := by
        intro hr
        rcases List.any_eq_true.mp hr with ⟨x, hx, hxk⟩
        exact absurd (List.any_eq_true.mpr ⟨x, List.mem_cons_of_mem kv hx, hxk⟩) h
      have := ih hrest
      simpa [List.find?, hk] using this

theorem mem_cacheStore (kv : String × Order) (c : List (String × Order)) (k : String)
    (o : Order) (h : kv ∈ cacheStore c k o) : kv = (k, o) ∨ kv ∈ c := by
  unfold cacheStore at h
  by_cases hc : c.any (fun x => x.1 = k)
  · simp only [hc, if_true] at h
    rcases List.mem_map.mp h with ⟨x, hx, hxe⟩
    by_cases hk : x.1 = k
    · simp [hk] at hxe; exact Or.inl hxe.symm
    · simp [hk] at hxe; exact Or.inr (hxe ▸ hx)
  · simp only [hc, if_false] at h
    rcases List.mem_append.mp h with h | h
    · exact Or.inr h
    · simp at h; exact Or.inl h

/-! ## Characterising `findOne` -/

theorem findOne_hit (id : String) (s : SysState) (o : Order)
    (h : cacheLookup s.cache (orderCacheKey id) = some o) :
    findOne id s = ({ s with trace := s.trace ++ [.cacheGet (orderCacheKey id)] }, .ok o) := by
  simp [findOne, h]

theorem findOne_miss_absent (id : String) (s : SysState)
    (h : cacheLookup s.cache (orderCacheKey id) = none)
    (h2 : storeFind s.store id = none) :
    findOne id s =
      ({ s with trace := s.trace ++ [.cacheGet (orderCacheKey id), .storeRead id] },
        .error (.notFound id)) := by
  simp [findOne, h, h2]

theorem findOne_miss_found (id : String) (s : SysState) (o : Order)
    (h : cacheLookup s.cache (orderCacheKey id) = none)
    (h2 : storeFind s.store id = some o) :
    findOne id s =
      ({ s with
          cache := cacheStore s.cache (orderCacheKey id) o
          trace := s.trace ++ [.cacheGet (orderCacheKey id), .storeRead id,
            .cacheSet (orderCacheKey id) 300] },
        .ok o) := by
  simp [findOne, h, h2]

theorem findOne_ok_cases (id : String) (s : SysState) (s1 : SysState) (o : Order)
    (h : findOne id s = (s1, .ok o)) :
    cacheLookup s.cache (orderCacheKey id) = some o ∨
      (cacheLookup s.cache (orderCacheKey id) = none ∧ storeFind s.store id = some o) := by
  cases hc : cacheLookup s.cache (orderCacheKey id) with
  | some o' =>
    rw [findOne_hit id s o' hc] at h
    simp only [Prod.mk.injEq, Except.ok.injEq] at h
    exact Or.inl (by rw [h.2])
  | none =>
    cases hf : storeFind s.store id with
    | none =>
      rw [findOne_miss_absent id s hc hf] at h
      simp at h
    | some o' =>
      rw [findOne_miss_found id s o' hc hf] at h
      simp only [Prod.mk.injEq, Except.ok.injEq] at h
      exact Or.inr ⟨rfl, by rw [h.2]⟩

theorem findOne_warm (id : String) (s : SysState) (s1 : SysState) (o : Order)
    (h : findOne id s = (s1, .ok o)) :
    cacheLookup s1.cache (orderCacheKey id) = some o := by
  cases hc : cacheLookup s.cache (orderCacheKey id) with
  | some o' =>
    rw [findOne_hit id s o' hc] at h
    simp only [Prod.mk.injEq, Except.ok.injEq] at h
    rw [← h.1, ← h.2]
    exact hc
  | none =>
    cases hf : storeFind s.store id with
    | none =>
      rw [findOne_miss_absent id s hc hf] at h
      simp at h
    | some o' =>
      rw [findOne_miss_found id s o' hc hf] at h
      simp only [Prod.mk.injEq, Except.ok.injEq] at h
      rw [← h.1, ← h.2]
      exact cacheLookup_cacheStore_self ..

/-! ## Characterising `updateStatus` and the publishers -/

theorem invalidate_store_eq (u : String) (s : SysState) :
    (invalidateUserOrdersCache u s).store = s.store := rfl

theorem publishOrderStatusChanged_store (f : Faults) (o : Order) (now : Nat) (s : SysState) :
    (publishOrderStatusChanged f o now s).1.store = s.store := by
  unfold publishOrderStatusChanged
  dsimp only
  split
  · rfl
  · split
    · split
      · rfl
      · rfl
    · rfl

theorem publishOrderCreated_store (f : Faults) (o : Order) (now : Nat) (s : SysState) :
    (publishOrderCreated f o now s).1.store = s.store := by
  unfold publishOrderCreated
  dsimp only
  split
  · rfl
  · split
    · rfl
    · rfl

theorem updateStatus_invalid (f : Faults) (id : String) (ns : OrderStatus)
    (r : Option String) (now : Nat) (s s1 : SysState) (o : Order)
    (hf : findOne id s = (s1, .ok o)) (hns : ns ∉ validTransitions o.status) :
    updateStatus f id ns r now s = (s1, .error (.invalidTransition o.status ns)) := by
  unfold updateStatus
  rw [hf]
  simp [validateStatusTransition, hns]

theorem updateStatus_notFound (f : Faults) (id : String) (ns : OrderStatus)
    (r : Option String) (now : Nat) (s s1 : SysState) (e : Err)
    (hf : findOne id s = (s1, .error e)) :
    updateStatus f id ns r now s = (s1, .error e) := by
  unfold updateStatus
  rw [hf]

theorem applyStatus_status (order : Order) (ns : OrderStatus) (r : Option String) (now : Nat) :
    (applyStatus order ns r now).status = ns := by
  unfold applyStatus
  by_cases h : ns = OrderStatus.cancelled <;> simp [h]

theorem applyStatus_cancelled (order : Order) (r : Option String) (now : Nat) :
    (applyStatus order .cancelled r now).cancelledAt = some now ∧
      (applyStatus order .cancelled r now).cancelReason = some (r.getD "") := by
  simp [applyStatus]

theorem applyStatus_not_cancelled (order : Order) (ns : OrderStatus) (r : Option String)
    (now : Nat) (h : ns ≠ .cancelled) :
    (applyStatus order ns r now).cancelledAt = order.cancelledAt ∧
      (applyStatus order ns r now).cancelReason = order.cancelReason := by
  simp [applyStatus, h]

theorem applyStatus_userId (order : Order) (ns : OrderStatus) (r : Option String) (now : Nat) :
    (applyStatus order ns r now).userId = order.userId := by
  unfold applyStatus
  by_cases h : ns = OrderStatus.cancelled <;> simp [h]

theorem saveAndPublish_ok_spec (f : Faults) (id : String) (o2 : Order) (u : String)
    (now : Nat) (s1 s' : SysState) (o' : Order)
    (h : saveAndPublish f id o2 u now s1 = (s', .ok o')) :
    o' = o2 ∧ s'.store = storeSave o2 s1.store := by
  unfold saveAndPublish at h
  by_cases hs : f.saveFails = true
  · simp [hs] at h
  · simp only [Bool.not_eq_true] at hs
    rw [hs] at h
    simp only [Bool.false_eq_true, if_false] at h
    cases hpub : publishOrderStatusChanged f o2 now
        { s1 with store := storeSave o2 s1.store, trace := s1.trace ++ [.storeSave id] } with
    | mk s3 pe =>
      rw [hpub] at h
      cases pe with
      | some e => simp at h
      | none =>
        simp only [Prod.mk.injEq, Except.ok.injEq] at h
        obtain ⟨hs', ho'⟩ := h
        refine ⟨ho'.symm, ?_⟩
        rw [← hs', invalidate_store_eq]
        have := publishOrderStatusChanged_store f o2 now
          { s1 with store := storeSave o2 s1.store, trace := s1.trace ++ [.storeSave id] }
        rw [hpub] at this
        exact this

theorem updateStatus_ok_spec (f : Faults) (id : String) (ns : OrderStatus)
    (r : Option String) (now : Nat) (s s' : SysState) (o' : Order)
    (h : updateStatus f id ns r now s = (s', .ok o')) :
    o'.status = ns ∧ o' ∈ s'.store ∧
      (ns = .cancelled → o'.cancelledAt = some now ∧ o'.cancelReason = some (r.getD "")) := by
  unfold updateStatus at h
  split at h
  · simp at h
  · split at h
    · simp at h
    · rename_i s1 order hfind vres u hval
      obtain ⟨ho', hstore⟩ := saveAndPublish_ok_spec f id
        (applyStatus order ns r now) order.userId now s1 s' o' h
      refine ⟨ho' ▸ applyStatus_status .., ?_, ?_⟩
      · rw [hstore, ho']
        exact storeSave_self_mem ..
      · intro hc
        subst hc
        rw [ho']
        exact applyStatus_cancelled ..

theorem updateStatus_ok_valid (f : Faults) (id : String) (ns : OrderStatus)
    (r : Option String) (now : Nat) (s s' : SysState) (o' : Order)
    (h : updateStatus f id ns r now s = (s', .ok o')) :
    ∃ s1 o, findOne id s = (s1, .ok o) ∧ ns ∈ validTransitions o.status := by
  unfold updateStatus at h
  split at h
  · simp at h
  · split at h
    · simp at h
    · rename_i s1 order hfind vres u hval
      refine ⟨s1, order, hfind, ?_⟩
      by_contra hns
      simp [validateStatusTransition, hns] at hval

/-! ## The cancelled-fields invariant over reachable states -/

/-- Per-order shape invariant: a CANCELLED order carries both cancellation
fields, any other order carries neither. -/
def OrderInvS (o : Order) : Prop :=
  (o.status = .cancelled → o.cancelledAt ≠ none ∧ o.cancelReason ≠ none) ∧
  (o.status ≠ .cancelled → o.cancelledAt = none ∧ o.cancelReason = none)

/-- The invariant over the whole state: every stored order and every cached
order copy satisfies `OrderInvS`. -/
def StateInv (s : SysState) : Prop :=
  (∀ o ∈ s.store, OrderInvS o) ∧ (∀ kv ∈ s.cache, OrderInvS kv.2)

theorem stateInv_init : StateInv initState := by
  constructor <;> intro x hx <;> simp [initState] at hx

theorem cacheLookup_mem (c : List (String × Order)) (k : String) (o : Order)
    (h : cacheLookup c k = some o) : ∃ kv ∈ c, kv.2 = o := by
  unfold cacheLookup at h
  cases hf : c.find? (fun kv => kv.1 = k) with
  | none => rw [hf] at h; simp at h
  | some kv =>
    rw [hf] at h
    simp at h
    exact ⟨kv, List.mem_of_find?_eq_some hf, h⟩

theorem storeFind_mem (st : List Order) (id : String) (o : Order)
    (h : storeFind st id = some o) : o ∈ st :=
  List.mem_of_find?_eq_some h

theorem findOne_ok_orderInv (id : String) (s s1 : SysState) (o : Order)
    (hinv : StateInv s) (h : findOne id s = (s1, .ok o)) : OrderInvS o := by
  rcases findOne_ok_cases id s s1 o h with hc | ⟨_, hf⟩
  · rcases cacheLookup_mem _ _ _ hc with ⟨kv, hkv, hkv2⟩
    exact hkv2 ▸ hinv.2 kv hkv
  · exact hinv.1 o (storeFind_mem _ _ _ hf)

theorem stateInv_findOne (id : String) (s : SysState) (hinv : StateInv s) :
    StateInv (findOne id s).1 := by
  cases hc : cacheLookup s.cache (orderCacheKey id) with
  | some o => rw [findOne_hit id s o hc]; exact hinv
  | none =>
    cases hf : storeFind s.store id with
    | none => rw [findOne_miss_absent id s hc hf]; exact hinv
    | some o =>
      rw [findOne_miss_found id s o hc hf]
      refine ⟨hinv.1, ?_⟩
      intro kv hkv
      rcases mem_cacheStore kv s.cache (orderCacheKey id) o hkv with rfl | hkv
      · exact hinv.1 o (storeFind_mem _ _ _ hf)
      · exact hinv.2 kv hkv

theorem publishOrderStatusChanged_cache (f : Faults) (o : Order) (now : Nat) (s : SysState) :
    (publishOrderStatusChanged f o now s).1.cache = s.cache := by
  unfold publishOrderStatusChanged
  dsimp only
  split
  · rfl
  · split
    · split
      · rfl
      · rfl
    · rfl

theorem publishOrderCreated_cache (f : Faults) (o : Order) (now : Nat) (s : SysState) :
    (publishOrderCreated f o now s).1.cache = s.cache := by
  unfold publishOrderCreated
  dsimp only
  split
  · rfl
  · split
    · rfl
    · rfl

theorem stateInv_saveAndPublish (f : Faults) (id : String) (o2 : Order) (u : String)
    (now : Nat) (s1 : SysState) (hinv : StateInv s1) (ho2 : OrderInvS o2) :
    StateInv (saveAndPublish f id o2 u now s1).1 := by
  unfold saveAndPublish
  dsimp only
  split
  · exact hinv
  · have hsave : StateInv
        { s1 with store := storeSave o2 s1.store, trace := s1.trace ++ [.storeSave id] } := by
      refine ⟨?_, hinv.2⟩
      intro o ho
      rcases mem_storeSave o o2 s1.store ho with rfl | ho
      · exact ho2
      · exact hinv.1 o ho
    cases hpub : publishOrderStatusChanged f o2 now
        { s1 with store := storeSave o2 s1.store, trace := s1.trace ++ [.storeSave id] } with
    | mk s3 pe =>
      have hs3 : StateInv s3 := by
        have h1 := publishOrderStatusChanged_store f o2 now
          { s1 with store := storeSave o2 s1.store, trace := s1.trace ++ [.storeSave id] }
        have h2 := publishOrderStatusChanged_cache f o2 now
          { s1 with store := storeSave o2 s1.store, trace := s1.trace ++ [.storeSave id] }
        rw [hpub] at h1 h2
        exact ⟨h1 ▸ hsave.1, h2 ▸ hsave.2⟩
      cases pe with
      | some e => exact hs3
      | none =>
        refine ⟨hs3.1, ?_⟩
        intro kv hkv
        dsimp only [invalidateUserOrdersCache] at hkv
        have hkv2 := List.mem_of_mem_filter hkv
        exact hs3.2 kv (List.mem_of_mem_filter hkv2)

theorem validate_ok_mem (c n : OrderStatus) (u : Unit)
    (h : validateStatusTransition c n = .ok u) : n ∈ validTransitions c := by
  by_contra hns
  simp [validateStatusTransition, hns] at h

theorem applyStatus_orderInv (order : Order) (ns : OrderStatus) (r : Option String)
    (now : Nat) (hord : OrderInvS order) (hns : ns ∈ validTransitions order.status) :
    OrderInvS (applyStatus order ns r now) := by
  by_cases hc : ns = OrderStatus.cancelled
  · subst hc
    obtain ⟨h1, h2⟩ := applyStatus_cancelled order r now
    exact ⟨fun _ => ⟨by rw [h1]; simp, by rw [h2]; simp⟩,
      fun hne => absurd (applyStatus_status ..) hne⟩
  · have hsc : order.status ≠ .cancelled := by
      intro he
      rw [he] at hns
      simp [validTransitions] at hns
    obtain ⟨h1, h2⟩ := applyStatus_not_cancelled order ns r now hc
    obtain ⟨hn1, hn2⟩ := hord.2 hsc
    constructor
    · intro he
      rw [applyStatus_status] at he
      exact absurd he hc
    · intro _
      rw [h1, h2]
      exact ⟨hn1, hn2⟩

theorem stateInv_updateStatus (f : Faults) (id : String) (ns : OrderStatus)
    (r : Option String) (now : Nat) (s : SysState) (hinv : StateInv s) :
    StateInv (updateStatus f id ns r now s).1 := by
  unfold updateStatus
  split
  · rename_i s1 e hfind
    have := stateInv_findOne id s hinv
    rw [hfind] at this
    exact this
  · rename_i s1 order hfind
    have hs1 : StateInv s1 := by
      have := stateInv_findOne id s hinv
      rw [hfind] at this
      exact this
    split
    · exact hs1
    · rename_i u hval
      exact stateInv_saveAndPublish f id (applyStatus order ns r now) order.userId now s1 hs1
        (applyStatus_orderInv order ns r now
          (findOne_ok_orderInv id s s1 order hinv hfind)
          (validate_ok_mem _ _ _ hval))

theorem builtOrder_orderInv (dto : CreateOrderDto) (newId : String) :
    OrderInvS (builtOrder dto newId) := by
  constructor
  · intro h
    simp [builtOrder] at h
  · intro _
    simp [builtOrder]

theorem stateInv_createOrder (f : Faults) (dto : CreateOrderDto) (newId : String)
    (now : Nat) (s : SysState) (hinv : StateInv s) :
    StateInv (createOrder f dto newId now s).1 := by
  unfold createOrder
  dsimp only
  split
  · exact hinv
  · have hsave : StateInv
        { s with
          store := storeSave (builtOrder dto newId) s.store
          trace := s.trace ++ [.storeSave newId] } := by
      refine ⟨?_, hinv.2⟩
      intro o ho
      rcases mem_storeSave o (builtOrder dto newId) s.store ho with rfl | ho
      · exact builtOrder_orderInv dto newId
      · exact hinv.1 o ho
    cases hpub : publishOrderCreated f (builtOrder dto newId) now
        { s with
          store := storeSave (builtOrder dto newId) s.store
          trace := s.trace ++ [.storeSave newId] } with
    | mk s2 pe =>
      have hs2 : StateInv s2 := by
        have h1 := publishOrderCreated_store f (builtOrder dto newId) now
          { s with
            store := storeSave (builtOrder dto newId) s.store
            trace := s.trace ++ [.storeSave newId] }
        have h2 := publishOrderCreated_cache f (builtOrder dto newId) now
          { s with
            store := storeSave (builtOrder dto newId) s.store
            trace := s.trace ++ [.storeSave newId] }
        rw [hpub] at h1 h2
        exact ⟨h1 ▸ hsave.1, h2 ▸ hsave.2⟩
      cases pe with
      | some e => exact hs2
      | none =>
        dsimp only
        split
        · exact hs2
        · refine ⟨hs2.1, ?_⟩
          intro kv hkv
          dsimp only [invalidateUserOrdersCache] at hkv
          exact hs2.2 kv (List.mem_of_mem_filter hkv)

theorem stateInv_validateOrder (orderId : String) (s : SysState) (hinv : StateInv s) :
    StateInv (validateOrder orderId s).1 := by
  unfold validateOrder
  split
  · rename_i s1 e hfind
    have := stateInv_findOne orderId s hinv
    rw [hfind] at this
    exact this
  · rename_i s1 o hfind
    have hs1 : StateInv s1 := by
      have := stateInv_findOne orderId s hinv
      rw [hfind] at this
      exact this
    split <;> exact hs1

theorem stateInv_progress (s : SysState) (pct : Nat) (hinv : StateInv s) :
    StateInv (progress s pct) := hinv

theorem stateInv_processTry (f : Faults) (orderId : String) (now : Nat) (s : SysState)
    (hinv : StateInv s) : StateInv (processOrderTry f orderId now s).1 := by
  unfold processOrderTry
  cases hv : validateOrder orderId (progress s 20) with
  | mk s2 vres =>
    have hs2 : StateInv s2 := by
      have := stateInv_validateOrder orderId (progress s 20) hinv
      rw [hv] at this
      exact this
    cases vres with
    | error e => exact hs2
    | ok u =>
      dsimp only
      by_cases hci : checkInventory f = false
      · simp only [hci, if_true]
        exact hs2
      · simp only [hci, if_false]
        cases reserveInventory f with
        | error e => exact hs2
        | ok u2 =>
          cases initiatePayment f with
          | error e => exact hs2
          | ok u3 =>
            cases hup : updateStatus f orderId .confirmed none now
                (progress (progress (progress (progress s2 40) 60) 80) 100) with
            | mk s7 ures =>
              have hs7 : StateInv s7 := by
                have := stateInv_updateStatus f orderId .confirmed none now
                  (progress (progress (progress (progress s2 40) 60) 80) 100) hs2
                rw [hup] at this
                exact this
              cases ures with
              | error e => exact hs7
              | ok r => exact hs7

theorem stateInv_handle (f : Faults) (orderId : String) (now : Nat) (s : SysState)
    (hinv : StateInv s) : StateInv (handleOrderProcessing f orderId now s).1 := by
  unfold handleOrderProcessing
  cases ht : processOrderTry f orderId now s with
  | mk s1 tres =>
    have hs1 : StateInv s1 := by
      have := stateInv_processTry f orderId now s hinv
      rw [ht] at this
      exact this
    cases tres with
    | ok r => exact hs1
    | error e =>
      have key : StateInv
          ((match updateStatus f orderId .cancelled (some (errMessage e)) now s1 with
            | (s2, Except.error e2) => (s2, Except.error e2)
            | (s2, Except.ok _) => (s2, Except.error e) : SysState × Except Err JobResult)).1 := by
        cases hup : updateStatus f orderId .cancelled (some (errMessage e)) now s1 with
        | mk s2 ures =>
          have hs2 : StateInv s2 := by
            have := stateInv_updateStatus f orderId .cancelled (some (errMessage e)) now s1 hs1
            rw [hup] at this
            exact this
          cases ures with
          | error e2 => exact hs2
          | ok r => exact hs2
      exact key

/-- The states reachable from the empty initial state by any sequence of
orchestrator and processor operations (each step with arbitrarily injected
collaborator faults). -/
inductive Reachable : SysState → Prop
  | init : Reachable initState
  | create (f : Faults) (dto : CreateOrderDto) (newId : String) (now : Nat) (s : SysState) :
      Reachable s → Reachable (createOrder f dto newId now s).1
  | find (id : String) (s : SysState) :
      Reachable s → Reachable (findOne id s).1
  | update (f : Faults) (id : String) (ns : OrderStatus) (r : Option String) (now : Nat)
      (s : SysState) : Reachable s → Reachable (updateStatus f id ns r now s).1
  | cancel (f : Faults) (id : String) (reason : String) (now : Nat) (s : SysState) :
      Reachable s → Reachable (cancelOrder f id reason now s).1
  | process (f : Faults) (orderId : String) (now : Nat) (s : SysState) :
      Reachable s → Reachable (handleOrderProcessing f orderId now s).1

theorem reachable_stateInv (s : SysState) (h : Reachable s) : StateInv s := by
  induction h with
  | init => exact stateInv_init
  | create f dto newId now s hr ih => exact stateInv_createOrder f dto newId now s ih
  | find id s hr ih => exact stateInv_findOne id s ih
  | update f id ns r now s hr ih => exact stateInv_updateStatus f id ns r now s ih
  | cancel f id reason now s hr ih =>
      exact stateInv_updateStatus f id .cancelled (some reason) now s ih
  | process f orderId now s hr ih => exact stateInv_handle f orderId now s ih

/-! ## Characterising `createOrder` and the processor -/

theorem createOrder_saveFail (f : Faults) (dto : CreateOrderDto) (newId : String)
    (now : Nat) (s : SysState) (h : f.saveFails = true) :
    createOrder f dto newId now s = (s, .error .storeFailure) := by
  simp [createOrder, h]

theorem createOrder_ok_built (f : Faults) (dto : CreateOrderDto) (newId : String)
    (now : Nat) (s s' : SysState) (o : Order)
    (h : createOrder f dto newId now s = (s', .ok o)) : o = builtOrder dto newId := by
  unfold createOrder at h
  dsimp only at h
  split at h
  · simp at h
  · split at h
    · simp at h
    · split at h
      · simp at h
      · simp only [Prod.mk.injEq, Except.ok.injEq] at h
        exact h.2.symm

theorem foldl_price (l : List CreateOrderItemDto) : ∀ a : Int,
    l.foldl (fun sum item => sum + item.unitPrice * (item.quantity : Int)) a
      = a + (l.map (fun item => item.unitPrice * (item.quantity : Int))).sum := by
  induction l with
  | nil => intro a; simp
  | cons x xs ih => intro a; simp [List.foldl_cons, ih, add_assoc]

theorem createOrder_success_run (f : Faults) (dto : CreateOrderDto) (newId : String)
    (now : Nat) (s : SysState)
    (h1 : f.saveFails = false) (h2 : f.emitFails "order.created" = false)
    (h3 : f.emitFails "order_created" = false) (h4 : f.enqueueFails = false) :
    createOrder f dto newId now s =
      ({ store := storeSave (builtOrder dto newId) s.store
         cache := s.cache.filter (fun kv => ¬ (listingKeyBase dto.userId).isPrefixOf kv.1)
         trace := s.trace ++ [.storeSave newId,
           .emit "order.created" (createdEnvelope (builtOrder dto newId) now),
           .emit "order_created" (createdEnvelope (builtOrder dto newId) now),
           .enqueue "process-order" newId dto.userId]
           ++ invalidationTrace dto.userId s.cache },
        .ok (builtOrder dto newId)) := by
  simp [createOrder, publishOrderCreated, invalidateUserOrdersCache, h1, h2, h3, h4]

theorem createOrder_afterSave_store (f : Faults) (dto : CreateOrderDto) (newId : String)
    (now : Nat) (s : SysState) (h1 : f.saveFails = false) :
    (createOrder f dto newId now s).1.store = storeSave (builtOrder dto newId) s.store := by
  by_cases ha : f.emitFails "order.created" = true <;>
    by_cases hb : f.emitFails "order_created" = true <;>
      by_cases hc : f.enqueueFails = true <;>
        simp [createOrder, publishOrderCreated, invalidateUserOrdersCache, h1, ha, hb, hc]

theorem createOrder_afterSave_err (f : Faults) (dto : CreateOrderDto) (newId : String)
    (now : Nat) (s : SysState) (h1 : f.saveFails = false)
    (hfail : f.emitFails "order.created" = true ∨ f.emitFails "order_created" = true ∨
      f.enqueueFails = true) :
    ∃ e, (createOrder f dto newId now s).2 = .error e := by
  rcases hfail with hf | hf | hf
  · exact ⟨.publishFailure "order.created",
      by simp [createOrder, publishOrderCreated, h1, hf]⟩
  · by_cases hf1 : f.emitFails "order.created" = true
    · exact ⟨.publishFailure "order.created",
        by simp [createOrder, publishOrderCreated, h1, hf1]⟩
    · exact ⟨.publishFailure "order_created",
        by simp [createOrder, publishOrderCreated, h1, hf1, hf]⟩
  · by_cases hf1 : f.emitFails "order.created" = true
    · exact ⟨.publishFailure "order.created",
        by simp [createOrder, publishOrderCreated, h1, hf1]⟩
    · by_cases hf2 : f.emitFails "order_created" = true
      · exact ⟨.publishFailure "order_created",
          by simp [createOrder, publishOrderCreated, h1, hf1, hf2]⟩
      · exact ⟨.queueFailure,
          by simp [createOrder, publishOrderCreated, h1, hf1, hf2, hf]⟩

theorem createOrder_afterSave_fail (f : Faults) (dto : CreateOrderDto) (newId : String)
    (now : Nat) (s : SysState) (h1 : f.saveFails = false)
    (hfail : f.emitFails "order.created" = true ∨ f.emitFails "order_created" = true ∨
      f.enqueueFails = true) :
    ∃ s' e, createOrder f dto newId now s = (s', .error e) ∧
      builtOrder dto newId ∈ s'.store := by
  obtain ⟨e, he⟩ := createOrder_afterSave_err f dto newId now s h1 hfail
  refine ⟨(createOrder f dto newId now s).1, e, Prod.ext rfl he, ?_⟩
  rw [createOrder_afterSave_store f dto newId now s h1]
  exact storeSave_self_mem ..

theorem processTry_ok_handle (f : Faults) (orderId : String) (now : Nat)
    (s s1 : SysState) (r : JobResult)
    (h : processOrderTry f orderId now s = (s1, .ok r)) :
    handleOrderProcessing f orderId now s = (s1, .ok r) := by
  unfold handleOrderProcessing
  rw [h]

theorem handle_catch_ok (f : Faults) (orderId : String) (now : Nat)
    (s s1 s2 : SysState) (e : Err) (o' : Order)
    (ht : processOrderTry f orderId now s = (s1, .error e))
    (hup : updateStatus f orderId .cancelled (some (errMessage e)) now s1 = (s2, .ok o')) :
    handleOrderProcessing f orderId now s = (s2, .error e) := by
  unfold handleOrderProcessing
  rw [ht]
  show (match updateStatus f orderId .cancelled (some (errMessage e)) now s1 with
      | (s2, Except.error e2) => (s2, Except.error e2)
      | (s2, Except.ok _) => ((s2, Except.error e) : SysState × Except Err JobResult))
    = (s2, Except.error e)
  rw [hup]

theorem handle_catch_fail (f : Faults) (orderId : String) (now : Nat)
    (s s1 s2 : SysState) (e e2 : Err)
    (ht : processOrderTry f orderId now s = (s1, .error e))
    (hup : updateStatus f orderId .cancelled (some (errMessage e)) now s1 =
      (s2, .error e2)) :
    handleOrderProcessing f orderId now s = (s2, .error e2) := by
  unfold handleOrderProcessing
  rw [ht]
  show (match updateStatus f orderId .cancelled (some (errMessage e)) now s1 with
      | (s2, Except.error e2) => (s2, Except.error e2)
      | (s2, Except.ok _) => ((s2, Except.error e) : SysState × Except Err JobResult))
    = (s2, Except.error e2)
  rw [hup]

theorem processTry_ok_confirmed (f : Faults) (orderId : String) (now : Nat)
    (s s1 : SysState) (r : JobResult)
    (h : processOrderTry f orderId now s = (s1, .ok r)) :
    ∃ o', o' ∈ s1.store ∧ o'.status = .confirmed := by
  unfold processOrderTry at h
  split at h
  · simp at h
  · split at h
    · simp at h
    · split at h
      · simp at h
      · split at h
        · simp at h
        · split at h
          · simp at h
          · rename_i s2 u s7 o' hup
            simp only [Prod.mk.injEq] at h
            obtain ⟨ho', hmem, _⟩ := updateStatus_ok_spec f orderId .confirmed none now _ s7 o' hup
            exact ⟨o', h.1 ▸ hmem, ho'⟩

theorem processTry_inventory_skip (f : Faults) (orderId : String) (now : Nat)
    (s s1 : SysState) (o : Order)
    (hci : checkInventory f = false)
    (hfind : findOne orderId (progress s 20) = (s1, .ok o))
    (hitems : o.items ≠ []) :
    processOrderTry f orderId now s =
      (progress s1 40, .error (.jobError "Insufficient inventory")) := by
  have hval : validateOrder orderId (progress s 20) = (s1, .ok ()) := by
    unfold validateOrder
    rw [hfind]
    simp [hitems]
  unfold processOrderTry
  rw [hval]
  simp [hci]

/-! ## Concrete fixtures used by witnesses and counterexamples -/

def addr0 : ShippingAddress :=
  { street := "123 Main St", city := "New York", state := "NY", zipCode := "10001",
    country := "USA" }

/-- The spec scenario item: unit price 999.99 (99999 minor units), quantity 1. -/
def item0 : CreateOrderItemDto :=
  { productId := "prod-1", productName := "Laptop", quantity := 1, unitPrice := 99999 }

def dto0 : CreateOrderDto :=
  { userId := "user-123", items := [item0], shippingAddress := addr0 }

def noFaults : Faults := {}

def saveFault : Faults := { saveFails := true }

def enqueueFault : Faults := { enqueueFails := true }

def kafkaCreatedFault : Faults := { emitFails := fun c => c = "order.created" }

def rabbitCreatedFault : Faults := { emitFails := fun c => c = "order_created" }

def statusChangedFault : Faults := { emitFails := fun c => c = "order.status.changed" }

def notificationFault : Faults := { emitFails := fun c => c = "order_notification" }

def invFault : Faults := { inventoryAvailable := false }

/-- A state holding one freshly created PENDING order with one item. -/
def sPend : SysState := { store := [builtOrder dto0 "o1"], cache := [], trace := [] }

def dtoEmpty : CreateOrderDto := { userId := "u9", items := [], shippingAddress := addr0 }

/-- A DELIVERED order with no items (so the pipeline's `validateOrder` step
raises while no edge to CANCELLED exists). -/
def deliveredOrder : Order :=
  { id := "o2", userId := "u2", totalAmount := 0, status := .delivered,
    shippingAddress := addr0, items := [], cancelledAt := none, cancelReason := none }

def sDel : SysState := { store := [deliveredOrder], cache := [], trace := [] }

/-- A CANCELLED order with no items (e.g. cancelled by a previous failed
processing attempt). -/
def cancOrder : Order :=
  { id := "o3", userId := "u3", totalAmount := 0, status := .cancelled,
    shippingAddress := addr0, items := [], cancelledAt := some 1,
    cancelReason := some "earlier failure" }

def sCanc : SysState := { store := [cancOrder], cache := [], trace := [] }

/-- The stale-cache run refuting strict write-once-ness of the cancellation
fields: create, warm the cache, cancel with a failing status-changed publish
(so the cache entry is never invalidated), then confirm off the stale cached
copy. -/
def s1c : SysState := (createOrder noFaults dto0 "o1" 1 initState).1

def s2c : SysState := (findOne "o1" s1c).1

def s3c : SysState := (cancelOrder statusChangedFault "o1" "user cancel" 5 s2c).1

def s4c : SysState := (updateStatus statusChangedFault "o1" .confirmed none 9 s3c).1

/-- States of the C7 witness run: a pending order whose inventory check
reports unavailability, then the catch-path cancellation. -/
def sTry7 : SysState := (processOrderTry invFault "o1" 3 sPend).1

def sCan7 : SysState :=
  (updateStatus invFault "o1" .cancelled (some "Insufficient inventory") 3 sTry7).1

def oCan7 : Order :=
  applyStatus (builtOrder dto0 "o1") .cancelled (some "Insufficient inventory") 3

/-! ## Claim theorems -/

/-- C1: `updateStatus` succeeds only along the transition table
(PENDING → {CONFIRMED, CANCELLED}, CONFIRMED → {PROCESSING, CANCELLED},
PROCESSING → {SHIPPED, CANCELLED}, SHIPPED → {DELIVERED}, DELIVERED and
CANCELLED terminal, never a self-transition); any other requested status
fails with `InvalidTransition` and leaves the stored orders unchanged. -/
theorem claim1_updateStatus_transition_table :
    (validTransitions .pending = [.confirmed, .cancelled] ∧
     validTransitions .confirmed = [.processing, .cancelled] ∧
     validTransitions .processing = [.shipped, .cancelled] ∧
     validTransitions .shipped = [.delivered] ∧
     validTransitions .delivered = [] ∧
     validTransitions .cancelled = [] ∧
     (∀ st : OrderStatus, st ∉ validTransitions st)) ∧
    (∀ (f : Faults) (id : String) (req : OrderStatus) (reason : Option String) (now : Nat)
        (s s1 : SysState) (o : Order),
      findOne id s = (s1, .ok o) → req ∉ validTransitions o.status →
      updateStatus f id req reason now s = (s1, .error (.invalidTransition o.status req)) ∧
        s1.store = s.store) ∧
    (∀ (f : Faults) (id : String) (req : OrderStatus) (reason : Option String) (now : Nat)
        (s s' : SysState) (o' : Order),
      updateStatus f id req reason now s = (s', .ok o') →
      ∃ s1 o, findOne id s = (s1, .ok o) ∧ req ∈ validTransitions o.status) := by
  refine ⟨⟨rfl, rfl, rfl, rfl, rfl, rfl, by intro st; cases st <;> decide⟩, ?_, ?_⟩
  · intro f id req reason now s s1 o hf hreq
    refine ⟨updateStatus_invalid f id req reason now s s1 o hf hreq, ?_⟩
    have h := findOne_store_eq id s
    rw [hf] at h
    exact h
  · intro f id req reason now s s' o' h
    exact updateStatus_ok_valid f id req reason now s s' o' h

/-- C1 witness: a backward move PENDING → SHIPPED on a stored pending order
fails with `InvalidTransition` and leaves the store unchanged. -/
theorem claim1_witness :
    findOne "o1" sPend = ((findOne "o1" sPend).1, .ok (builtOrder dto0 "o1")) ∧
    OrderStatus.shipped ∉ validTransitions (builtOrder dto0 "o1").status ∧
    (updateStatus noFaults "o1" .shipped none 0 sPend =
      ((findOne "o1" sPend).1, .error (.invalidTransition .pending .shipped)) ∧
      (findOne "o1" sPend).1.store = sPend.store) := by
  refine ⟨by decide, by decide, ?_⟩
  have h := claim1_updateStatus_transition_table.2.1 noFaults "o1" .shipped none 0
    sPend (findOne "o1" sPend).1 (builtOrder dto0 "o1") (by decide) (by decide)
  exact h

/-- C2 counterexample: the claim says `createOrder` rejects an empty item
list with `ValidationError` and persists nothing; on the code, a call with
an empty item list succeeds and persists an order with totalAmount 0. -/
theorem claim2_counterexample :
    (createOrder noFaults dtoEmpty "o9" 0 initState).2 = .ok (builtOrder dtoEmpty "o9") ∧
    (builtOrder dtoEmpty "o9").totalAmount = 0 ∧
    (builtOrder dtoEmpty "o9").items = [] ∧
    (builtOrder dtoEmpty "o9").status = .pending ∧
    (createOrder noFaults dtoEmpty "o9" 0 initState).1.store = [builtOrder dtoEmpty "o9"] := by
  refine ⟨by decide, by decide, by decide, by decide, by decide⟩

/-- C2 amended: `createOrder` performs no empty-items check of its own — an
empty item list is accepted and persisted with totalAmount 0, no items and
status PENDING (empty-list rejection is left entirely to the external
transport layer). -/
theorem claim2_empty_items_accepted :
    ∀ (f : Faults) (userId : String) (sa : ShippingAddress) (newId : String) (now : Nat)
      (s : SysState),
    f.saveFails = false → f.emitFails "order.created" = false →
    f.emitFails "order_created" = false → f.enqueueFails = false →
    ∃ s' o, createOrder f { userId := userId, items := [], shippingAddress := sa } newId now s
        = (s', .ok o) ∧ o.totalAmount = 0 ∧ o.items = [] ∧ o.status = .pending ∧
        o ∈ s'.store := by
  intro f u sa newId now s h1 h2 h3 h4
  have hrun := createOrder_success_run f ⟨u, [], sa⟩ newId now s h1 h2 h3 h4
  refine ⟨_, _, hrun, by simp [builtOrder], by simp [builtOrder], rfl, ?_⟩
  exact storeSave_self_mem ..

/-- C2 witness for the amended theorem. -/
theorem claim2_witness :
    (createOrder noFaults dtoEmpty "o9" 11 initState).2 = .ok (builtOrder dtoEmpty "o9") ∧
    (builtOrder dtoEmpty "o9").totalAmount = 0 ∧
    (builtOrder dtoEmpty "o9").status = .pending ∧
    builtOrder dtoEmpty "o9" ∈ (createOrder noFaults dtoEmpty "o9" 11 initState).1.store := by
  have h := claim2_empty_items_accepted noFaults "u9" addr0 "o9" 11 initState rfl rfl rfl rfl
  exact ⟨by decide, by decide, by decide, by decide⟩

/-- C3 counterexample: in a concrete successful `createOrder` run the side
effects after persistence are publish (Kafka, RabbitMQ), then enqueue, then
cache invalidation — not cache invalidation first as the claim states. -/
theorem claim3_counterexample :
    (createOrder noFaults dto0 "o1" 7 initState).1.trace =
      [.storeSave "o1",
       .emit "order.created" (createdEnvelope (builtOrder dto0 "o1") 7),
       .emit "order_created" (createdEnvelope (builtOrder dto0 "o1") 7),
       .enqueue "process-order" "o1" "user-123",
       .cacheScan "user-123"] ∧
    (createOrder noFaults dto0 "o1" 7 initState).1.trace ≠
      [.storeSave "o1",
       .cacheScan "user-123",
       .emit "order.created" (createdEnvelope (builtOrder dto0 "o1") 7),
       .emit "order_created" (createdEnvelope (builtOrder dto0 "o1") 7),
       .enqueue "process-order" "o1" "user-123"] := by
  exact ⟨by decide, by decide⟩

/-- C3 amended: after successful persistence the side effects occur in this
order: `publishOrderCreated` (Kafka topic then RabbitMQ queue), then the
`process-order` job enqueue, then the invalidation of the user's cached
paginated listings. -/
theorem claim3_side_effect_order :
    ∀ (f : Faults) (dto : CreateOrderDto) (newId : String) (now : Nat) (s : SysState),
    f.saveFails = false → f.emitFails "order.created" = false →
    f.emitFails "order_created" = false → f.enqueueFails = false →
    createOrder f dto newId now s =
      ({ store := storeSave (builtOrder dto newId) s.store
         cache := s.cache.filter (fun kv => ¬ (listingKeyBase dto.userId).isPrefixOf kv.1)
         trace := s.trace ++ [.storeSave newId,
           .emit "order.created" (createdEnvelope (builtOrder dto newId) now),
           .emit "order_created" (createdEnvelope (builtOrder dto newId) now),
           .enqueue "process-order" newId dto.userId]
           ++ invalidationTrace dto.userId s.cache },
        .ok (builtOrder dto newId)) := by
  intro f dto newId now s h1 h2 h3 h4
  exact createOrder_success_run f dto newId now s h1 h2 h3 h4

/-- C3 witness for the amended theorem. -/
theorem claim3_witness :
    createOrder noFaults dto0 "o1" 7 initState =
      ({ store := storeSave (builtOrder dto0 "o1") initState.store
         cache := initState.cache.filter
           (fun kv => ¬ (listingKeyBase dto0.userId).isPrefixOf kv.1)
         trace := initState.trace ++ [.storeSave "o1",
           .emit "order.created" (createdEnvelope (builtOrder dto0 "o1") 7),
           .emit "order_created" (createdEnvelope (builtOrder dto0 "o1") 7),
           .enqueue "process-order" "o1" dto0.userId]
           ++ invalidationTrace dto0.userId initState.cache },
        .ok (builtOrder dto0 "o1")) :=
  claim3_side_effect_order noFaults dto0 "o1" 7 initState rfl rfl rfl rfl

/-- C4: a persistence failure aborts `createOrder` with no side effect at
all (state returned untouched: nothing published, enqueued or invalidated);
a failure of publish or enqueue after a successful save propagates but the
saved order remains in the store. -/
theorem claim4_persistence_gate :
    (∀ (f : Faults) (dto : CreateOrderDto) (newId : String) (now : Nat) (s : SysState),
      f.saveFails = true →
      createOrder f dto newId now s = (s, .error .storeFailure)) ∧
    (∀ (f : Faults) (dto : CreateOrderDto) (newId : String) (now : Nat) (s : SysState),
      f.saveFails = false →
      (f.emitFails "order.created" = true ∨ f.emitFails "order_created" = true ∨
        f.enqueueFails = true) →
      ∃ s' e, createOrder f dto newId now s = (s', .error e) ∧
        builtOrder dto newId ∈ s'.store) :=
  ⟨createOrder_saveFail, createOrder_afterSave_fail⟩

/-- C4 witness: a failing save returns the state untouched; a failing
enqueue leaves the saved order in the store. -/
theorem claim4_witness :
    createOrder saveFault dto0 "o1" 7 initState = (initState, .error .storeFailure) ∧
    (createOrder enqueueFault dto0 "o1" 7 initState).2 = .error .queueFailure ∧
    builtOrder dto0 "o1" ∈ (createOrder enqueueFault dto0 "o1" 7 initState).1.store := by
  have h := claim4_persistence_gate.2 enqueueFault dto0 "o1" 7 initState rfl
    (Or.inr (Or.inr rfl))
  exact ⟨claim4_persistence_gate.1 saveFault dto0 "o1" 7 initState rfl, by decide, by decide⟩

/-- C5: a successful `createOrder` returns an order whose totalAmount is the
sum of unitPrice·quantity over the items, whose items each carry
totalPrice = unitPrice·quantity, and whose status is PENDING. -/
theorem claim5_create_totals :
    ∀ (f : Faults) (dto : CreateOrderDto) (newId : String) (now : Nat) (s s' : SysState)
      (o : Order),
    createOrder f dto newId now s = (s', .ok o) → dto.items ≠ [] →
    o.totalAmount = (dto.items.map (fun it => it.unitPrice * (it.quantity : Int))).sum ∧
    (∀ it ∈ o.items, it.totalPrice = it.unitPrice * (it.quantity : Int)) ∧
    o.status = .pending := by
  intro f dto newId now s s' o h hne
  have hob := createOrder_ok_built f dto newId now s s' o h
  subst hob
  refine ⟨?_, ?_, rfl⟩
  · show dto.items.foldl (fun sum item => sum + item.unitPrice * (item.quantity : Int)) 0
      = (dto.items.map (fun it => it.unitPrice * (it.quantity : Int))).sum
    rw [foldl_price]
    simp
  · intro it hit
    simp only [builtOrder, List.mem_map] at hit
    obtain ⟨a, ha, rfl⟩ := hit
    rfl

/-- C5 witness: the spec scenario — one item of unit price 999.99 (99999
minor units), quantity 1 — yields totalAmount 99999 and status PENDING. -/
theorem claim5_witness :
    (createOrder noFaults dto0 "o1" 7 initState).2 = .ok (builtOrder dto0 "o1") ∧
    (builtOrder dto0 "o1").totalAmount = 99999 ∧
    (builtOrder dto0 "o1").status = .pending := by
  have h := claim5_create_totals noFaults dto0 "o1" 7 initState
    (createOrder noFaults dto0 "o1" 7 initState).1 (builtOrder dto0 "o1")
    (by decide) (by decide)
  exact ⟨by decide, by rw [h.1]; decide, h.2.2⟩

/-- C6: `publishOrderCancelled` never propagates a broker failure (its catch
block swallows them), while `publishOrderCreated` and
`publishOrderStatusChanged` propagate any failure of the emits they
perform. -/
theorem claim6_publish_failure_policy :
    (∀ (f : Faults) (o : Order) (now : Nat) (s : SysState),
      (publishOrderCancelled f o now s).2 = none) ∧
    (∀ (f : Faults) (o : Order) (now : Nat) (s : SysState),
      f.emitFails "order.created" = true →
      (publishOrderCreated f o now s).2 = some (.publishFailure "order.created")) ∧
    (∀ (f : Faults) (o : Order) (now : Nat) (s : SysState),
      f.emitFails "order.created" = false → f.emitFails "order_created" = true →
      (publishOrderCreated f o now s).2 = some (.publishFailure "order_created")) ∧
    (∀ (f : Faults) (o : Order) (now : Nat) (s : SysState),
      f.emitFails "order.status.changed" = true →
      (publishOrderStatusChanged f o now s).2 =
        some (.publishFailure "order.status.changed")) ∧
    (∀ (f : Faults) (o : Order) (now : Nat) (s : SysState),
      f.emitFails "order.status.changed" = false →
      (o.status = .shipped ∨ o.status = .delivered) →
      f.emitFails "order_notification" = true →
      (publishOrderStatusChanged f o now s).2 =
        some (.publishFailure "order_notification")) := by
  refine ⟨?_, ?_, ?_, ?_, ?_⟩
  · intro f o now s
    unfold publishOrderCancelled
    dsimp only
    split
    · rfl
    · split
      · rfl
      · rfl
  · intro f o now s h
    simp [publishOrderCreated, h]
  · intro f o now s h1 h2
    simp [publishOrderCreated, h1, h2]
  · intro f o now s h
    simp [publishOrderStatusChanged, h]
  · intro f o now s h1 h2 h3
    simp [publishOrderStatusChanged, h1, h2, h3]

/-- C6 witness: with every broker emit failing, `publishOrderCancelled`
still returns without error, while failing emits make the created and
status-changed publishers return their failures. -/
theorem claim6_witness :
    (publishOrderCancelled kafkaCreatedFault (builtOrder dto0 "o1") 0 initState).2 = none ∧
    (publishOrderCreated kafkaCreatedFault (builtOrder dto0 "o1") 0 initState).2 =
      some (.publishFailure "order.created") ∧
    (publishOrderCreated rabbitCreatedFault (builtOrder dto0 "o1") 0 initState).2 =
      some (.publishFailure "order_created") ∧
    (publishOrderStatusChanged statusChangedFault (builtOrder dto0 "o1") 0 initState).2 =
      some (.publishFailure "order.status.changed") ∧
    (publishOrderStatusChanged notificationFault deliveredOrder 0 initState).2 =
      some (.publishFailure "order_notification") :=
  ⟨claim6_publish_failure_policy.1 kafkaCreatedFault (builtOrder dto0 "o1") 0 initState,
   claim6_publish_failure_policy.2.1 kafkaCreatedFault (builtOrder dto0 "o1") 0 initState
     (by decide),
   claim6_publish_failure_policy.2.2.1 rabbitCreatedFault (builtOrder dto0 "o1") 0 initState
     (by decide) (by decide),
   claim6_publish_failure_policy.2.2.2.1 statusChangedFault (builtOrder dto0 "o1") 0
     initState (by decide),
   claim6_publish_failure_policy.2.2.2.2 notificationFault deliveredOrder 0 initState
     (by decide) (Or.inr (by decide)) (by decide)⟩

/-- C7 counterexample: on a DELIVERED order with no items, the pipeline's
`validateOrder` step raises "Order has no items", but the order is not
moved to CANCELLED and the propagated error is the catch path's own
`InvalidTransition`, not the original pipeline error — refuting the claim
as universally stated. -/
theorem claim7_counterexample :
    (handleOrderProcessing noFaults "o2" 3 sDel).2 =
      .error (.invalidTransition .delivered .cancelled) ∧
    (handleOrderProcessing noFaults "o2" 3 sDel).2 ≠
      .error (.jobError "Order has no items") ∧
    (storeFind (handleOrderProcessing noFaults "o2" 3 sDel).1.store "o2").map
      (fun o => o.status) = some .delivered := by
  exact ⟨by decide, by decide, by decide⟩

/-- C7 amended: the queue is registered with 3 attempts, exponential backoff
starting at 2000 ms, removing the job record on success and retaining it on
failure.  A failing pipeline step short-circuits the remaining steps (shown
for an unavailable inventory check) and the handler then attempts
`updateStatus(orderId, CANCELLED, reason = error.message)`: when that
cancellation succeeds, the order ends CANCELLED with cancelReason equal to
the error's message and the original error is re-raised; when the current
status admits no edge to CANCELLED the cancellation's own `InvalidTransition`
propagates instead.  On full success of all steps the handler returns the
success result and the order has been moved to CONFIRMED. -/
theorem claim7_pipeline_failure_policy :
    (orderProcessingQueueOptions.attempts = 3 ∧
     orderProcessingQueueOptions.backoff.type = "exponential" ∧
     orderProcessingQueueOptions.backoff.delay = 2000 ∧
     orderProcessingQueueOptions.removeOnComplete = true ∧
     orderProcessingQueueOptions.removeOnFail = false) ∧
    (∀ (f : Faults) (orderId : String) (now : Nat) (s s1 : SysState) (o : Order),
      checkInventory f = false →
      findOne orderId (progress s 20) = (s1, .ok o) → o.items ≠ [] →
      processOrderTry f orderId now s =
        (progress s1 40, .error (.jobError "Insufficient inventory"))) ∧
    (∀ (f : Faults) (orderId : String) (now : Nat) (s s1 s2 : SysState) (e : Err)
        (o' : Order),
      processOrderTry f orderId now s = (s1, .error e) →
      updateStatus f orderId .cancelled (some (errMessage e)) now s1 = (s2, .ok o') →
      handleOrderProcessing f orderId now s = (s2, .error e) ∧
        o'.status = .cancelled ∧ o'.cancelReason = some (errMessage e) ∧
        o'.cancelledAt = some now ∧ o' ∈ s2.store) ∧
    (∀ (f : Faults) (orderId : String) (now : Nat) (s s1 : SysState) (r : JobResult),
      processOrderTry f orderId now s = (s1, .ok r) →
      handleOrderProcessing f orderId now s = (s1, .ok r) ∧
        ∃ o', o' ∈ s1.store ∧ o'.status = .confirmed) := by
  refine ⟨⟨rfl, rfl, rfl, rfl, rfl⟩, processTry_inventory_skip, ?_, ?_⟩
  · intro f orderId now s s1 s2 e o' ht hup
    obtain ⟨hst, hmem, hfields⟩ :=
      updateStatus_ok_spec f orderId .cancelled (some (errMessage e)) now s1 s2 o' hup
    obtain ⟨hat, hreason⟩ := hfields rfl
    exact ⟨handle_catch_ok f orderId now s s1 s2 e o' ht hup, hst, hreason, hat, hmem⟩
  · intro f orderId now s s1 r h
    exact ⟨processTry_ok_handle f orderId now s s1 r h,
      processTry_ok_confirmed f orderId now s s1 r h⟩

/-- C7 witness: a pending order whose inventory check reports
unavailability ends CANCELLED with cancelReason "Insufficient inventory"
and the job fails with the original error. -/
theorem claim7_witness :
    handleOrderProcessing invFault "o1" 3 sPend =
      (sCan7, .error (.jobError "Insufficient inventory")) ∧
    oCan7.status = .cancelled ∧
    oCan7.cancelReason = some "Insufficient inventory" ∧
    oCan7 ∈ sCan7.store := by
  have h := claim7_pipeline_failure_policy.2.2.1 invFault "o1" 3 sPend sTry7 sCan7
    (.jobError "Insufficient inventory") oCan7 (by decide) (by decide)
  exact ⟨h.1, h.2.1, h.2.2.1, h.2.2.2.2⟩

/-- C8: `findOne` is idempotent — after a successful call, a second call
returns the same order via a cache hit that adds only a cache read (never a
store read); a cache hit always returns immediately; on a miss, an absent
id fails with `NotFound` and a present one is cached with a 300 second TTL
and returned. -/
theorem claim8_findOne_cache_aside :
    (∀ (id : String) (s s1 : SysState) (o : Order),
      findOne id s = (s1, .ok o) →
      findOne id s1 =
        ({ s1 with trace := s1.trace ++ [.cacheGet (orderCacheKey id)] }, .ok o)) ∧
    (∀ (id : String) (s : SysState) (o : Order),
      cacheLookup s.cache (orderCacheKey id) = some o →
      findOne id s =
        ({ s with trace := s.trace ++ [.cacheGet (orderCacheKey id)] }, .ok o)) ∧
    (∀ (id : String) (s : SysState),
      cacheLookup s.cache (orderCacheKey id) = none → storeFind s.store id = none →
      findOne id s =
        ({ s with trace := s.trace ++ [.cacheGet (orderCacheKey id), .storeRead id] },
          .error (.notFound id))) ∧
    (∀ (id : String) (s : SysState) (o : Order),
      cacheLookup s.cache (orderCacheKey id) = none → storeFind s.store id = some o →
      findOne id s =
        ({ s with
            cache := cacheStore s.cache (orderCacheKey id) o
            trace := s.trace ++ [.cacheGet (orderCacheKey id), .storeRead id,
              .cacheSet (orderCacheKey id) 300] },
          .ok o) ∧
        cacheLookup (findOne id s).1.cache (orderCacheKey id) = some o) := by
  refine ⟨?_, findOne_hit, findOne_miss_absent, ?_⟩
  · intro id s s1 o h
    exact findOne_hit id s1 o (findOne_warm id s s1 o h)
  · intro id s o h1 h2
    refine ⟨findOne_miss_found id s o h1 h2, ?_⟩
    rw [findOne_miss_found id s o h1 h2]
    exact cacheLookup_cacheStore_self ..

/-- C8 witness: after a first `findOne` on a cold cache, the second call
returns the same order and performs only a cache read. -/
theorem claim8_witness :
    findOne "o1" sPend = ((findOne "o1" sPend).1, .ok (builtOrder dto0 "o1")) ∧
    findOne "o1" (findOne "o1" sPend).1 =
      ({ (findOne "o1" sPend).1 with
          trace := (findOne "o1" sPend).1.trace ++ [.cacheGet (orderCacheKey "o1")] },
        .ok (builtOrder dto0 "o1")) :=
  ⟨by decide,
   claim8_findOne_cache_aside.1 "o1" sPend (findOne "o1" sPend).1 (builtOrder dto0 "o1")
     (by decide)⟩

/-- C9 counterexample: the cancellation fields are not write-once.  In a
reachable run — create, warm the cache, cancel while the status-changed
publish fails (so the `order:o1` cache entry is never invalidated), then
update to CONFIRMED off the stale cached PENDING copy — the stored order's
`cancelledAt`/`cancelReason`, previously `some 5`/`some "user cancel"`, are
reset to `none` by an operation that is not a transition into CANCELLED. -/
theorem claim9_counterexample :
    Reachable s4c ∧
    s3c = (cancelOrder statusChangedFault "o1" "user cancel" 5 s2c).1 ∧
    s4c = (updateStatus statusChangedFault "o1" .confirmed none 9 s3c).1 ∧
    (storeFind s3c.store "o1").map (fun o => o.status) = some .cancelled ∧
    (storeFind s3c.store "o1").map (fun o => o.cancelledAt) = some (some 5) ∧
    (storeFind s3c.store "o1").map (fun o => o.cancelReason) = some (some "user cancel") ∧
    (storeFind s4c.store "o1").map (fun o => o.status) = some .confirmed ∧
    (storeFind s4c.store "o1").map (fun o => o.cancelledAt) = some none ∧
    (storeFind s4c.store "o1").map (fun o => o.cancelReason) = some none := by
  refine ⟨?_, rfl, rfl, by decide, by decide, by decide, by decide, by decide, by decide⟩
  exact Reachable.update statusChangedFault "o1" .confirmed none 9 s3c
    (Reachable.cancel statusChangedFault "o1" "user cancel" 5 s2c
      (Reachable.find "o1" s1c
        (Reachable.create noFaults dto0 "o1" 1 initState Reachable.init)))

/-- C9 amended: in every reachable state, `cancelledAt` and `cancelReason`
are non-null iff the order's status is CANCELLED; they are written at a
transition into CANCELLED, and an `updateStatus` that observes a CANCELLED
order always fails with `InvalidTransition` leaving the store unchanged.
They are, however, not strictly write-once: when a publish failure aborts
`updateStatus` after the save but before cache invalidation, a later
`updateStatus` served the stale cached copy can re-save the order and reset
both fields (see the counterexample). -/
theorem claim9_cancel_fields :
    (∀ s, Reachable s → ∀ o ∈ s.store,
      ((o.cancelledAt ≠ none ∧ o.cancelReason ≠ none) ↔ o.status = .cancelled)) ∧
    (∀ (f : Faults) (id : String) (ns : OrderStatus) (r : Option String) (now : Nat)
        (s s1 : SysState) (o : Order),
      findOne id s = (s1, .ok o) → o.status = .cancelled →
      updateStatus f id ns r now s = (s1, .error (.invalidTransition .cancelled ns)) ∧
        s1.store = s.store) := by
  constructor
  · intro s hr o ho
    have hinv := (reachable_stateInv s hr).1 o ho
    constructor
    · rintro ⟨h1, h2⟩
      by_contra hne
      obtain ⟨hn1, _⟩ := hinv.2 hne
      exact h1 hn1
    · intro hc
      exact hinv.1 hc
  · intro f id ns r now s s1 o hfind hco
    have hns : ns ∉ validTransitions o.status := by
      rw [hco]
      simp [validTransitions]
    have h := updateStatus_invalid f id ns r now s s1 o hfind hns
    rw [hco] at h
    refine ⟨h, ?_⟩
    have h2 := findOne_store_eq id s
    rw [hfind] at h2
    exact h2

/-- C9 witness: the invariant evaluated on a concrete reachable state (after
a create and a successful cancellation), and a cancellation attempt on an
already CANCELLED order failing with `InvalidTransition`. -/
theorem claim9_witness :
    (((builtOrder dto0 "o1").cancelledAt ≠ none ∧
        (builtOrder dto0 "o1").cancelReason ≠ none) ↔
      (builtOrder dto0 "o1").status = .cancelled) ∧
    (updateStatus noFaults "o3" .confirmed none 8 sCanc =
      ((findOne "o3" sCanc).1, .error (.invalidTransition .cancelled .confirmed)) ∧
      (findOne "o3" sCanc).1.store = sCanc.store) := by
  constructor
  · have hr : Reachable s1c := Reachable.create noFaults dto0 "o1" 1 initState Reachable.init
    exact claim9_cancel_fields.1 s1c hr (builtOrder dto0 "o1") (by decide)
  · exact claim9_cancel_fields.2 noFaults "o3" .confirmed none 8 sCanc
      (findOne "o3" sCanc).1 cancOrder (by decide) (by decide)

/-- C10: when a pipeline step fails while the loaded order's status has no
edge to CANCELLED, the catch path's unconditional
`updateStatus(orderId, CANCELLED)` itself raises `InvalidTransition`, and
that error — not the original pipeline error — propagates to the queue. -/
theorem claim10_catch_invalid_transition :
    ∀ (f : Faults) (orderId : String) (now : Nat) (s s1 s2 : SysState) (e : Err) (o : Order),
      processOrderTry f orderId now s = (s1, .error e) →
      findOne orderId s1 = (s2, .ok o) →
      OrderStatus.cancelled ∉ validTransitions o.status →
      handleOrderProcessing f orderId now s =
        (s2, .error (.invalidTransition o.status .cancelled)) ∧
      (∀ m, e = .jobError m → Err.invalidTransition o.status .cancelled ≠ e) := by
  intro f orderId now s s1 s2 e o ht hfind hnc
  refine ⟨?_, ?_⟩
  · exact handle_catch_fail f orderId now s s1 s2 e _ ht
      (updateStatus_invalid f orderId .cancelled (some (errMessage e)) now s1 s2 o hfind hnc)
  · intro m hm h
    rw [hm] at h
    exact absurd h (by simp)

/-- C10 witness: a job on an already CANCELLED order with no items fails in
`validateOrder` with "Order has no items", yet the propagated error is the
catch path's `InvalidTransition` from CANCELLED to CANCELLED. -/
theorem claim10_witness :
    handleOrderProcessing noFaults "o3" 4 sCanc =
      ((findOne "o3" (processOrderTry noFaults "o3" 4 sCanc).1).1,
        .error (.invalidTransition .cancelled .cancelled)) ∧
    Err.invalidTransition .cancelled .cancelled ≠ .jobError "Order has no items" := by
  have h := claim10_catch_invalid_transition noFaults "o3" 4 sCanc
    (processOrderTry noFaults "o3" 4 sCanc).1
    (findOne "o3" (processOrderTry noFaults "o3" 4 sCanc).1).1
    (.jobError "Order has no items") cancOrder (by decide) (by decide) (by decide)
  exact ⟨h.1, h.2 "Order has no items" rfl⟩
